import Mathlib

/-
Shallow embedding of `src/fastapi_backend.py` (AI Study Assistant backend).

Conventions of the embedding:
* Python strings holding document text are modelled as `List Char` (`Text`),
  so `text[:n]` becomes `List.take n` and `len` becomes `List.length`.
* Python ints are modelled as `Int`.
* The module-level dict `study_sessions` is modelled as an association list
  threaded through every handler (state passing); a handler returns the new
  store alongside its response.
* One blocking collaborator call wrapped in
  `await asyncio.wait_for(asyncio.to_thread(...), timeout)` is modelled as a
  function supplied to the handler returning an `Outcome`: `ok` (finished in
  time), `timeout` (`asyncio.TimeoutError`), or `exn` (any other exception).
  Each handler also returns the list of offloaded collaborator calls it
  performed on the taken path, one entry per `wait_for`/`to_thread` site hit.
* `raise HTTPException(status_code, detail)` becomes `Resp.error code detail`;
  a returned pydantic model becomes `Resp.payload`.
-/

set_option autoImplicit false

namespace StudyBackend

/-- Document text, modelling a Python `str` as its list of characters. -/
abbrev Text := List Char

/-- Opaque JSON-like dict entries returned by discovery collaborators. -/
abbrev Dict := List (String × String)

/-- The `"..."` marker appended on truncation (lines 274, 319, 384, 452, 491, 536, 580). -/
def truncMarker : Text := ['.', '.', '.']

/-- `if len(text) > max_chars: text = text[:max_chars] + "..."` — the
truncation step shared by every generation/discovery handler. -/
def truncateText (budget : Nat) (t : Text) : Text :=
  if t.length > budget then t.take budget ++ truncMarker else t

/-- Result of one offloaded collaborator call awaited with a timeout:
it finished in time, it timed out (`asyncio.TimeoutError`), or it raised. -/
inductive Outcome (α : Type) where
  | ok (a : α)
  | timeout
  | exn (msg : String)
deriving DecidableEq

/-- A handler result: an `HTTPException` with status code and detail, or a
successful response body. -/
inductive Resp (α : Type) where
  | error (code : Nat) (detail : String)
  | payload (a : α)
deriving DecidableEq

/-- The offloaded collaborator call sites (`asyncio.to_thread(...)` targets). -/
inductive CollabCall where
  | extractText
  | generateSummary
  | generateFlashcards
  | generateQuiz
  | findPapers
  | extractKeywords
  | findVideos
  | findResources
  | chatCompletion
deriving DecidableEq

/-- The dict returned by `pdf_processor.extract_text_with_ocr`. -/
structure ExtractResult where
  status : String
  message : String
  text : Text
  word_count : Nat
  page_count : Nat
  methods_used : List String
deriving DecidableEq

/-- One entry of `study_sessions` (lines 229-234). -/
structure Session where
  text : Text
  file_info : String
  processing_result : ExtractResult
  filename : String
deriving DecidableEq

/-- The module-level `study_sessions` dict, as an association list. -/
abbrev Store := List (String × Session)

/-- `session_id in study_sessions` / `study_sessions[session_id]`. -/
def lookupStore : Store → String → Option Session
  | [], _ => none
  | (k, v) :: rest, key => if k = key then some v else lookupStore rest key

/-- `del study_sessions[session_id]`. -/
def eraseStore : Store → String → Store
  | [], _ => []
  | (k, v) :: rest, key =>
      if k = key then eraseStore rest key else (k, v) :: eraseStore rest key

/-- `study_sessions[session_id] = ...` (unconditional overwrite). -/
def insertStore (st : Store) (key : String) (v : Session) : Store :=
  (key, v) :: eraseStore st key

/-- Whitespace for Python `str.split()` (ASCII whitespace classes). -/
def isSpacePy (c : Char) : Bool :=
  c = ' ' || c = '\t' || c = '\n' || c = '\x0d' || c = '\x0b' || c = '\x0c'

/-- Helper for `wordCount`: counts maximal non-whitespace runs; the Bool
records whether we are inside a word. -/
def countWordsAux : Text → Bool → Nat
  | [], _ => 0
  | c :: rest, inWord =>
      if isSpacePy c then countWordsAux rest false
      else (if inWord then 0 else 1) + countWordsAux rest true

/-- `len(text.split())`: number of whitespace-separated words. -/
def wordCount (t : Text) : Nat := countWordsAux t false

/-- 404 detail shared by all generation/discovery handlers. -/
def notFoundMsg : String := "No document found. Please upload a PDF first."

/-- Flashcard item shape (question, answer, category, difficulty). -/
structure Flashcard where
  question : String
  answer : String
  category : String
  difficulty : String
deriving DecidableEq

/-- Quiz item shape (question, options, correct index, explanation, difficulty). -/
structure QuizQuestion where
  question : String
  options : List String
  correct_answer : Nat
  explanation : String
  difficulty : String
deriving DecidableEq

structure ProcessingStatus where
  status : String
  message : String
  word_count : Nat
  page_count : Nat
  methods_used : List String
deriving DecidableEq

structure SummaryResponse where
  summary : String
  status : String
deriving DecidableEq

structure FlashcardResponse where
  flashcards : List Flashcard
  count : Nat
  status : String
deriving DecidableEq

structure QuizResponse where
  quiz : List QuizQuestion
  count : Nat
  status : String
deriving DecidableEq

structure ResearchPapersResponse where
  papers : List Dict
  count : Nat
  status : String
deriving DecidableEq

structure VideosResponse where
  videos : List Dict
  count : Nat
  status : String
deriving DecidableEq

structure WebResourcesResponse where
  resources : List Dict
  count : Nat
  status : String
deriving DecidableEq

structure AnswerResponse where
  answer : String
  status : String
deriving DecidableEq

/-- The first fallback flashcard (lines 331-336 and 354-359 use the same literal). -/
def fallbackCardMainTopic : Flashcard :=
  { question := "What is the main topic of this document?"
    answer := "This document covers academic or professional content that requires study and analysis."
    category := "General"
    difficulty := "Easy" }

/-- The second fallback flashcard (lines 337-342). -/
def fallbackCardStudyTips : Flashcard :=
  { question := "What should you focus on when studying this material?"
    answer := "Focus on key concepts, methodologies, and important conclusions presented in the content."
    category := "Study Tips"
    difficulty := "Medium" }

/-- `basic_flashcards` returned when the collaborator finishes with a falsy
(empty) list (lines 330-343). -/
def emptyResultFlashcards : List Flashcard :=
  [fallbackCardMainTopic, fallbackCardStudyTips]

/-- `basic_flashcards` returned on `asyncio.TimeoutError` (lines 353-360). -/
def timeoutFlashcards : List Flashcard :=
  [fallbackCardMainTopic]

/-- The first fallback quiz question (lines 396-402 and 421-427 use the same literal). -/
def fallbackQuizDocType : QuizQuestion :=
  { question := "What type of document is this?"
    options := ["Academic/Professional document", "Fiction novel", "Recipe book", "Comic book"]
    correct_answer := 0
    explanation := "Based on the content analysis, this appears to be academic or professional material."
    difficulty := "Easy" }

/-- The second fallback quiz question (lines 403-409). -/
def fallbackQuizApproach : QuizQuestion :=
  { question := "What is the best approach to studying this material?"
    options := ["Skim through quickly", "Focus on key concepts and take notes", "Memorize every word", "Ignore the details"]
    correct_answer := 1
    explanation := "Effective studying involves focusing on key concepts and taking detailed notes for better retention."
    difficulty := "Medium" }

/-- `basic_quiz` returned when the collaborator finishes with a falsy (empty)
list (lines 395-410). -/
def emptyResultQuiz : List QuizQuestion :=
  [fallbackQuizDocType, fallbackQuizApproach]

/-- `basic_quiz` returned on `asyncio.TimeoutError` (lines 420-428). -/
def timeoutQuiz : List QuizQuestion :=
  [fallbackQuizDocType]

/-- `basic_summary` built in the summary timeout handler (line 293): an
f-string interpolating the stored document's word count and the stored
extraction result's page count. -/
def basicSummary (sess : Session) : String :=
  "Document Summary:\n\nThis document contains " ++ toString (wordCount sess.text) ++
  " words across " ++ toString sess.processing_result.page_count ++
  " pages. The content appears to cover academic or professional material that requires detailed study.\n\nKey points may include important concepts, methodologies, and conclusions relevant to the subject matter. For a more detailed analysis, please try the summary generation again or use the Q&A feature to ask specific questions about the content."

/-- Clamp at lines 308-310: `if num_cards < 1 or num_cards > 20:
num_cards = min(max(num_cards, 1), 20)`. -/
def effectiveNumCards (n : Int) : Int :=
  if n < 1 ∨ n > 20 then min (max n 1) 20 else n

/-- Clamp at lines 373-374: `if num_questions < 1 or num_questions > 15:
num_questions = min(max(num_questions, 1), 15)`. -/
def effectiveNumQuestions (n : Int) : Int :=
  if n < 1 ∨ n > 15 then min (max n 1) 15 else n

/-- Cap at lines 441-442: `if max_papers > 15: max_papers = 15`. -/
def effectiveMaxPapers (n : Int) : Int :=
  if n > 15 then 15 else n

/-- Cap at lines 480-481: `if max_videos > 12: max_videos = 12`. -/
def effectiveMaxVideos (n : Int) : Int :=
  if n > 12 then 12 else n

/-- Cap at lines 525-526: `if max_resources > 15: max_resources = 15`. -/
def effectiveMaxResources (n : Int) : Int :=
  if n > 15 then 15 else n

/-- `file.filename.lower().endswith(".pdf")` (line 182), modelled over the
character list so it evaluates inside the kernel. -/
def isPdfName (filename : String) : Bool :=
  let d := filename.data.map Char.toLower
  decide (4 ≤ d.length ∧ d.drop (d.length - 4) = ".pdf".data)

/-- `POST /upload-pdf` (lines 175-258). `content_size` is `len(await file.read())`;
`extract` is the outcome of the offloaded `pdf_processor.extract_text_with_ocr`
call awaited with a 120 s timeout. The `file_info` f-string's float rendering
of the size in MB is elided; no downstream behavior depends on it. -/
def upload_pdf (store : Store) (filename : String) (content_size : Nat)
    (extract : Outcome ExtractResult) :
    Resp ProcessingStatus × Store × List CollabCall :=
  if filename = "" then
    (.error 400 "No filename provided", store, [])
  else if ¬ isPdfName filename then
    (.error 400 "Only PDF files are allowed", store, [])
  else if content_size > 50 * 1024 * 1024 then
    (.error 400 "File too large. Maximum size is 50MB", store, [])
  else if content_size = 0 then
    (.error 400 "Empty file uploaded", store, [])
  else
    match extract with
    | .timeout =>
        (.error 408 "PDF processing timeout. File may be too complex or large.",
         store, [.extractText])
    | .exn msg =>
        (.error 500 ("Processing failed: " ++ msg), store, [.extractText])
    | .ok result =>
        if result.status = "error" then
          (.error 400 result.message, store, [.extractText])
        else if result.word_count < 10 then
          (.error 422 "Very little text could be extracted. PDF may be image-based, protected, or corrupted.",
           store, [.extractText])
        else
          let sess : Session :=
            { text := result.text
              file_info := "File: " ++ filename
              processing_result := result
              filename := filename }
          (.payload
            { status := result.status
              message := result.message
              word_count := result.word_count
              page_count := result.page_count
              methods_used := result.methods_used },
           insertStore store "default" sess, [.extractText])

/-- `POST /generate-summary` (lines 260-299). `gen` is the outcome of the
offloaded `summary_agent.generate_summary(text)` call (90 s timeout). -/
def generate_summary (store : Store) (session_id : String)
    (gen : Text → Outcome String) :
    Resp SummaryResponse × Store × List CollabCall :=
  match lookupStore store session_id with
  | none => (.error 404 notFoundMsg, store, [])
  | some sess =>
      let text := truncateText 8000 sess.text
      match gen text with
      | .ok summary =>
          if summary.startsWith "❌" then
            (.error 500 ("Summary generation failed: " ++ summary), store,
             [.generateSummary])
          else
            (.payload { summary := summary, status := "success" }, store,
             [.generateSummary])
      | .timeout =>
          (.payload { summary := basicSummary sess, status := "success" }, store,
           [.generateSummary])
      | .exn msg =>
          (.error 500 ("Summary generation failed: " ++ msg), store,
           [.generateSummary])

/-- `POST /generate-flashcards` (lines 301-364). `gen` is the outcome of the
offloaded `flashcard_agent.generate_flashcards_structured(text, num_cards)`
call (120 s timeout). -/
def generate_flashcards (store : Store) (session_id : String) (num_cards : Int)
    (gen : Text → Int → Outcome (List Flashcard)) :
    Resp FlashcardResponse × Store × List CollabCall :=
  match lookupStore store session_id with
  | none => (.error 404 notFoundMsg, store, [])
  | some sess =>
      let num_cards := effectiveNumCards num_cards
      let text := truncateText 6000 sess.text
      match gen text num_cards with
      | .ok flashcards =>
          if flashcards = [] then
            (.payload
              { flashcards := emptyResultFlashcards
                count := emptyResultFlashcards.length
                status := "success" },
             store, [.generateFlashcards])
          else
            (.payload
              { flashcards := flashcards
                count := flashcards.length
                status := "success" },
             store, [.generateFlashcards])
      | .timeout =>
          (.payload
            { flashcards := timeoutFlashcards
              count := timeoutFlashcards.length
              status := "success" },
           store, [.generateFlashcards])
      | .exn msg =>
          (.error 500 ("Flashcard generation failed: " ++ msg), store,
           [.generateFlashcards])

/-- `POST /generate-quiz` (lines 366-432). `gen` is the outcome of the
offloaded `quiz_agent.generate_quiz_structured(text, num_questions)` call
(120 s timeout). -/
def generate_quiz (store : Store) (session_id : String) (num_questions : Int)
    (gen : Text → Int → Outcome (List QuizQuestion)) :
    Resp QuizResponse × Store × List CollabCall :=
  match lookupStore store session_id with
  | none => (.error 404 notFoundMsg, store, [])
  | some sess =>
      let num_questions := effectiveNumQuestions num_questions
      let text := truncateText 6000 sess.text
      match gen text num_questions with
      | .ok quiz =>
          if quiz = [] then
            (.payload
              { quiz := emptyResultQuiz
                count := emptyResultQuiz.length
                status := "success" },
             store, [.generateQuiz])
          else
            (.payload
              { quiz := quiz, count := quiz.length, status := "success" },
             store, [.generateQuiz])
      | .timeout =>
          (.payload
            { quiz := timeoutQuiz
              count := timeoutQuiz.length
              status := "success" },
           store, [.generateQuiz])
      | .exn msg =>
          (.error 500 ("Quiz generation failed: " ++ msg), store, [.generateQuiz])

/-- `POST /discover-research` (lines 434-471). `findP` is the outcome of the
offloaded `research_agent.find_papers(text, max_papers)` call (180 s timeout);
both its timeout and any exception fall back to an empty list. -/
def discover_research (store : Store) (session_id : String) (max_papers : Int)
    (findP : Text → Int → Outcome (List Dict)) :
    Resp ResearchPapersResponse × Store × List CollabCall :=
  match lookupStore store session_id with
  | none => (.error 404 notFoundMsg, store, [])
  | some sess =>
      let max_papers := effectiveMaxPapers max_papers
      let text := truncateText 4000 sess.text
      match findP text max_papers with
      | .ok papers =>
          (.payload
            { papers := papers, count := papers.length, status := "success" },
           store, [.findPapers])
      | .timeout =>
          (.payload { papers := [], count := 0, status := "success" }, store,
           [.findPapers])
      | .exn _ =>
          (.payload { papers := [], count := 0, status := "success" }, store,
           [.findPapers])

/-- `POST /discover-videos` (lines 473-516). Two offloaded calls:
`research_agent.extract_smart_keywords_and_topic(text)` (45 s timeout)
returning `(topic, research_keywords, all_keywords)`, then
`youtube_agent.find_videos(research_keywords, topic, max_videos)` (150 s
timeout). Either call timing out or raising yields the empty-list fallback. -/
def discover_videos (store : Store) (session_id : String) (max_videos : Int)
    (extractKw : Text → Outcome (String × List String × List String))
    (findV : List String → String → Int → Outcome (List Dict)) :
    Resp VideosResponse × Store × List CollabCall :=
  match lookupStore store session_id with
  | none => (.error 404 notFoundMsg, store, [])
  | some sess =>
      let max_videos := effectiveMaxVideos max_videos
      let text := truncateText 3000 sess.text
      match extractKw text with
      | .timeout =>
          (.payload { videos := [], count := 0, status := "success" }, store,
           [.extractKeywords])
      | .exn _ =>
          (.payload { videos := [], count := 0, status := "success" }, store,
           [.extractKeywords])
      | .ok (topic, research_keywords, _all_keywords) =>
          match findV research_keywords topic max_videos with
          | .ok videos =>
              (.payload
                { videos := videos, count := videos.length, status := "success" },
               store, [.extractKeywords, .findVideos])
          | .timeout =>
              (.payload { videos := [], count := 0, status := "success" }, store,
               [.extractKeywords, .findVideos])
          | .exn _ =>
              (.payload { videos := [], count := 0, status := "success" }, store,
               [.extractKeywords, .findVideos])

/-- `POST /discover-resources` (lines 518-561). Two offloaded calls, like
`discover_videos`: keyword extraction (45 s), then
`web_agent.find_resources(research_keywords, topic, max_resources)` (150 s). -/
def discover_resources (store : Store) (session_id : String) (max_resources : Int)
    (extractKw : Text → Outcome (String × List String × List String))
    (findR : List String → String → Int → Outcome (List Dict)) :
    Resp WebResourcesResponse × Store × List CollabCall :=
  match lookupStore store session_id with
  | none => (.error 404 notFoundMsg, store, [])
  | some sess =>
      let max_resources := effectiveMaxResources max_resources
      let text := truncateText 3000 sess.text
      match extractKw text with
      | .timeout =>
          (.payload { resources := [], count := 0, status := "success" }, store,
           [.extractKeywords])
      | .exn _ =>
          (.payload { resources := [], count := 0, status := "success" }, store,
           [.extractKeywords])
      | .ok (topic, research_keywords, _all_keywords) =>
          match findR research_keywords topic max_resources with
          | .ok resources =>
              (.payload
                { resources := resources
                  count := resources.length
                  status := "success" },
               store, [.extractKeywords, .findResources])
          | .timeout =>
              (.payload { resources := [], count := 0, status := "success" },
               store, [.extractKeywords, .findResources])
          | .exn _ =>
              (.payload { resources := [], count := 0, status := "success" },
               store, [.extractKeywords, .findResources])

/-- The prompt f-string built at lines 582-593, as a function of the
(possibly truncated) document content and the question. -/
def questionPrompt (text_content question : Text) : Text :=
  ("Based on the following document content, please answer the question comprehensively and accurately.\n\nDocument Content:\n").data
  ++ text_content
  ++ ("\n\nQuestion: ").data
  ++ question
  ++ ("\n\nInstructions:\n- Provide a detailed, accurate answer based on the document\n- If the information isn\x27t in the document, say so clearly\n- Use specific examples from the document when possible\n- Keep the answer well-structured and easy to understand").data

/-- `POST /ask-question` (lines 563-612). The handler never touches
`study_sessions`; the store is threaded through unchanged. `chat` is the
outcome of the offloaded `client.chat_completion` call (60 s timeout). -/
def ask_question (store : Store) (question document_text : Text)
    (chat : Text → Outcome String) :
    Resp AnswerResponse × Store × List CollabCall :=
  if question.all isSpacePy then
    (.error 400 "Question cannot be empty", store, [])
  else if document_text.all isSpacePy then
    (.error 400 "No document text provided", store, [])
  else
    let text_content := truncateText 6000 document_text
    match chat (questionPrompt text_content question) with
    | .ok response =>
        if response.startsWith "❌" then
          (.error 500 ("Question answering failed: " ++ response), store,
           [.chatCompletion])
        else
          (.payload { answer := response, status := "success" }, store,
           [.chatCompletion])
    | .timeout =>
        (.error 408 "Question answering timeout. Please try again.", store,
         [.chatCompletion])
    | .exn msg =>
        (.error 500 ("Question answering failed: " ++ msg), store,
         [.chatCompletion])

/-- Body of `DELETE /clear-session` and `GET /session-info` confirmations. -/
structure MessageStatus where
  message : String
  status : String
deriving DecidableEq

/-- `DELETE /clear-session` (lines 614-623). -/
def clear_session (store : Store) (session_id : String) :
    MessageStatus × Store :=
  match lookupStore store session_id with
  | some _ =>
      ({ message := "Session cleared successfully", status := "success" },
       eraseStore store session_id)
  | none =>
      ({ message := "No active session found", status := "info" }, store)

/-- Response of `GET /session-info` (lines 625-640). -/
inductive SessionInfoResp where
  | inactive (message : String)
  | active (file_info : String) (filename : String) (word_count : Nat)
      (page_count : Nat) (methods_used : List String)
deriving DecidableEq

/-- `GET /session-info` (lines 625-640); read-only, store threaded through. -/
def get_session_info (store : Store) (session_id : String) :
    SessionInfoResp × Store :=
  match lookupStore store session_id with
  | none => (.inactive "No active session", store)
  | some s =>
      (.active s.file_info s.filename s.processing_result.word_count
        s.processing_result.page_count s.processing_result.methods_used,
       store)

/-- Modelled from the spec wording of §4.3/§8 for comparison in claim C2 only:
clamping a requested count to the nearest boundary of a closed range
`[lo, hi]`. The source-side counterparts are the `effective*` functions. -/
def specClamp (lo hi n : Int) : Int := max lo (min n hi)

/-- A concrete extraction result used to build sample sessions. -/
def sampleResult : ExtractResult :=
  { status := "success"
    message := "PDF processed successfully"
    text := "hello world from the sample document".data
    word_count := 6
    page_count := 3
    methods_used := ["pdfplumber"] }

/-- A concrete stored session. -/
def sampleSession : Session :=
  { text := "hello world from the sample document".data
    file_info := "File: sample.pdf"
    processing_result := sampleResult
    filename := "sample.pdf" }

/-- A store holding one session under the default key. -/
def sampleStore : Store := [("default", sampleSession)]

/-- Extraction result of a one-word document (1 word, 1 page). -/
def resultOneWord : ExtractResult :=
  { status := "success", message := "ok", text := ['a']
    word_count := 1, page_count := 1, methods_used := [] }

/-- Session for the one-word document. -/
def sessionOneWord : Session :=
  { text := ['a'], file_info := "File: a.pdf"
    processing_result := resultOneWord, filename := "a.pdf" }

/-- Extraction result of a two-word document. -/
def resultTwoWords : ExtractResult :=
  { status := "success", message := "ok", text := ['a', ' ', 'b']
    word_count := 2, page_count := 1, methods_used := [] }

/-- Session for the two-word document. -/
def sessionTwoWords : Session :=
  { text := ['a', ' ', 'b'], file_info := "File: b.pdf"
    processing_result := resultTwoWords, filename := "b.pdf" }

/-- Store holding the one-word session. -/
def storeOneWord : Store := [("default", sessionOneWord)]

/-- Store holding the two-word session. -/
def storeTwoWords : Store := [("default", sessionTwoWords)]

/-- Extraction result whose word count is below the minimum threshold of 10. -/
def lowTextResult : ExtractResult :=
  { status := "success", message := "Successfully extracted text", text := ['h', 'i']
    word_count := 1, page_count := 1, methods_used := ["ocr"] }

/-- Claim C1 (counterexample): the summary endpoint's timeout fallback is not
a fixed placeholder — it interpolates the stored document's word count and
page count (line 293), so two sessions holding different documents receive
different timeout responses. Here a one-word and a two-word document yield
distinct fallback summaries on the same timeout. -/
theorem C1_counterexample :
    (generate_summary storeOneWord "default" (fun _ => Outcome.timeout)).1 ≠
    (generate_summary storeTwoWords "default" (fun _ => Outcome.timeout)).1 := by
  decide

/-- Claim C1 (amended): when the offloaded operation times out, flashcards
and quiz return success with their kind's fixed placeholder content,
identical on every timeout and independent of the document; summary also
returns success with a fixed template, but that template embeds the stored
document's word count and page count, so its content is derived from the
session's state. -/
theorem C1_timeout_fallbacks (store : Store) (sid : String) (s : Session)
    (h : lookupStore store sid = some s) (n m : Int) :
    (generate_flashcards store sid n (fun _ _ => Outcome.timeout)).1 =
      Resp.payload { flashcards := timeoutFlashcards, count := timeoutFlashcards.length, status := "success" } ∧
    (generate_quiz store sid m (fun _ _ => Outcome.timeout)).1 =
      Resp.payload { quiz := timeoutQuiz, count := timeoutQuiz.length, status := "success" } ∧
    (generate_summary store sid (fun _ => Outcome.timeout)).1 =
      Resp.payload { summary := basicSummary s, status := "success" } := by
  refine ⟨?_, ?_, ?_⟩ <;> simp [generate_flashcards, generate_quiz, generate_summary, h]

/-- Claim C1 (witness): the amended statement evaluated on a concrete store. -/
theorem C1_timeout_fallbacks_witness :
    (generate_flashcards sampleStore "default" 10 (fun _ _ => Outcome.timeout)).1 =
      Resp.payload { flashcards := timeoutFlashcards, count := timeoutFlashcards.length, status := "success" } ∧
    (generate_summary sampleStore "default" (fun _ => Outcome.timeout)).1 =
      Resp.payload { summary := basicSummary sampleSession, status := "success" } := by
  have H := C1_timeout_fallbacks sampleStore "default" sampleSession (by decide) 10 8
  exact ⟨H.1, H.2.2⟩

/-- Claim C2 (counterexample): the research-paper count is not clamped to the
nearest boundary of any closed range — the code only caps it above at 15
(lines 441-442) and passes every smaller value through, so the effective
count is unbounded below and no closed range reproduces it. -/
theorem C2_counterexample :
    ¬ ∃ lo hi : Int, lo ≤ hi ∧ ∀ n : Int, effectiveMaxPapers n = specClamp lo hi n := by
  rintro ⟨lo, hi, hle, hall⟩
  have h := hall (min lo 0 - 1)
  simp only [effectiveMaxPapers, specClamp] at h
  rw [if_neg (by omega)] at h
  omega

/-- Claim C2 (amended): flashcard and quiz counts are clamped to the nearest
boundary of the closed ranges [1, 20] and [1, 15]; the paper, video and
resource counts are only capped above (at 15, 12 and 15) and requested
values below the cap — including zero and negative values — are passed to
the collaborator unchanged. The handler conjuncts observe the count actually
received by the collaborator by echoing it back in the produced items. -/
theorem C2_effective_counts (store : Store) (sid : String) (s : Session) (n : Int)
    (h : lookupStore store sid = some s) :
    effectiveNumCards n = max 1 (min n 20) ∧
    effectiveNumQuestions n = max 1 (min n 15) ∧
    effectiveMaxPapers n = min n 15 ∧
    effectiveMaxVideos n = min n 12 ∧
    effectiveMaxResources n = min n 15 ∧
    (generate_flashcards store sid n (fun _ k => Outcome.ok [⟨toString k, "", "", ""⟩])).1 =
      Resp.payload { flashcards := [⟨toString (max 1 (min n 20)), "", "", ""⟩], count := 1, status := "success" } ∧
    (generate_quiz store sid n (fun _ k => Outcome.ok [⟨toString k, [], 0, "", ""⟩])).1 =
      Resp.payload { quiz := [⟨toString (max 1 (min n 15)), [], 0, "", ""⟩], count := 1, status := "success" } ∧
    (discover_research store sid n (fun _ k => Outcome.ok [[("requested", toString k)]])).1 =
      Resp.payload { papers := [[("requested", toString (min n 15))]], count := 1, status := "success" } ∧
    (∀ topic ks as, (discover_videos store sid n (fun _ => Outcome.ok (topic, ks, as))
        (fun _ _ k => Outcome.ok [[("requested", toString k)]])).1 =
      Resp.payload { videos := [[("requested", toString (min n 12))]], count := 1, status := "success" }) ∧
    (∀ topic ks as, (discover_resources store sid n (fun _ => Outcome.ok (topic, ks, as))
        (fun _ _ k => Outcome.ok [[("requested", toString k)]])).1 =
      Resp.payload { resources := [[("requested", toString (min n 15))]], count := 1, status := "success" }) := by
  have hc : effectiveNumCards n = max 1 (min n 20) := by
    simp only [effectiveNumCards]; split <;> omega
  have hq : effectiveNumQuestions n = max 1 (min n 15) := by
    simp only [effectiveNumQuestions]; split <;> omega
  have hp : effectiveMaxPapers n = min n 15 := by
    simp only [effectiveMaxPapers]; split <;> omega
  have hv : effectiveMaxVideos n = min n 12 := by
    simp only [effectiveMaxVideos]; split <;> omega
  have hr : effectiveMaxResources n = min n 15 := by
    simp only [effectiveMaxResources]; split <;> omega
  refine ⟨hc, hq, hp, hv, hr, ?_, ?_, ?_, ?_, ?_⟩ <;>
    (try intro topic ks as) <;>
    simp [generate_flashcards, generate_quiz, discover_research, discover_videos,
      discover_resources, h, hc, hq, hp, hv, hr]

/-- Claim C2 (witness): requesting 50 flashcards on a concrete store yields
an effective count of 20, the upper bound of the flashcard range. -/
theorem C2_effective_counts_witness :
    effectiveNumCards 50 = max 1 (min 50 20) ∧
    (generate_flashcards sampleStore "default" 50 (fun _ k => Outcome.ok [⟨toString k, "", "", ""⟩])).1 =
      Resp.payload { flashcards := [⟨toString (max 1 (min (50 : Int) 20)), "", "", ""⟩]
                     count := 1, status := "success" } := by
  have H := C2_effective_counts sampleStore "default" sampleSession 50 (by decide)
  exact ⟨H.1, H.2.2.2.2.2.1⟩

/-- Claim C3: on an existing session, every discovery handler whose offloaded
collaborator call times out or raises any exception returns success with an
empty list and count 0, never an error. For videos and resources this holds
whichever of the two offloaded calls (keyword extraction or the search) fails. -/
theorem C3_discovery_degrades_to_empty (store : Store) (sid : String) (s : Session)
    (h : lookupStore store sid = some s) :
    (∀ (n : Int) (o : Outcome (List Dict)), (o = Outcome.timeout ∨ ∃ m, o = Outcome.exn m) →
      (discover_research store sid n (fun _ _ => o)).1 =
        Resp.payload { papers := [], count := 0, status := "success" }) ∧
    (∀ (n : Int) (o : Outcome (String × List String × List String)) (findV),
      (o = Outcome.timeout ∨ ∃ m, o = Outcome.exn m) →
      (discover_videos store sid n (fun _ => o) findV).1 =
        Resp.payload { videos := [], count := 0, status := "success" }) ∧
    (∀ (n : Int) (topic : String) (ks as : List String) (o : Outcome (List Dict)),
      (o = Outcome.timeout ∨ ∃ m, o = Outcome.exn m) →
      (discover_videos store sid n (fun _ => Outcome.ok (topic, ks, as)) (fun _ _ _ => o)).1 =
        Resp.payload { videos := [], count := 0, status := "success" }) ∧
    (∀ (n : Int) (o : Outcome (String × List String × List String)) (findR),
      (o = Outcome.timeout ∨ ∃ m, o = Outcome.exn m) →
      (discover_resources store sid n (fun _ => o) findR).1 =
        Resp.payload { resources := [], count := 0, status := "success" }) ∧
    (∀ (n : Int) (topic : String) (ks as : List String) (o : Outcome (List Dict)),
      (o = Outcome.timeout ∨ ∃ m, o = Outcome.exn m) →
      (discover_resources store sid n (fun _ => Outcome.ok (topic, ks, as)) (fun _ _ _ => o)).1 =
        Resp.payload { resources := [], count := 0, status := "success" }) := by
  refine ⟨?_, ?_, ?_, ?_, ?_⟩ <;> intros <;>
    (rename_i ho; rcases ho with rfl | ⟨m, rfl⟩ <;>
      simp [discover_research, discover_videos, discover_resources, h])

/-- Claim C3 (witness): concrete timeout and exception runs on a concrete
store all produce the empty-list success response. -/
theorem C3_discovery_degrades_to_empty_witness :
    (discover_research sampleStore "default" 10 (fun _ _ => Outcome.timeout)).1 =
      Resp.payload { papers := [], count := 0, status := "success" } ∧
    (discover_videos sampleStore "default" 10 (fun _ => Outcome.ok ("t", ["k"], ["k"]))
        (fun _ _ _ => Outcome.exn "boom")).1 =
      Resp.payload { videos := [], count := 0, status := "success" } ∧
    (discover_resources sampleStore "default" 10 (fun _ => Outcome.timeout)
        (fun _ _ _ => Outcome.ok [])).1 =
      Resp.payload { resources := [], count := 0, status := "success" } := by
  have H := C3_discovery_degrades_to_empty sampleStore "default" sampleSession (by decide)
  exact ⟨H.1 10 Outcome.timeout (Or.inl rfl),
         H.2.2.1 10 "t" ["k"] ["k"] (Outcome.exn "boom") (Or.inr ⟨"boom", rfl⟩),
         H.2.2.2.1 10 Outcome.timeout (fun _ _ _ => Outcome.ok []) (Or.inl rfl)⟩

/-- Claim C4: text strictly longer than a kind's character budget is
truncated to exactly the first budget-many characters followed by the
truncation marker (total length budget + marker length); text of length at
most the budget is forwarded unchanged. `truncateText` is the truncation
step every handler applies before its collaborator call, at budgets 8000
(summary), 6000 (flashcards, quiz, question), 4000 (research) and 3000
(videos, resources). -/
theorem C4_truncation (budget : Nat) (t : Text) :
    (t.length > budget →
      truncateText budget t = t.take budget ++ truncMarker ∧
      (truncateText budget t).length = budget + truncMarker.length) ∧
    (t.length ≤ budget → truncateText budget t = t) := by
  constructor
  · intro hlt
    constructor
    · simp only [truncateText, if_pos hlt]
    · simp only [truncateText, if_pos hlt, List.length_append, List.length_take, truncMarker,
        List.length_cons, List.length_nil]
      omega
  · intro hle
    simp only [truncateText, if_neg (by omega : ¬ t.length > budget)]

/-- Claim C4 (witness): a four-character text against budget 2 is cut and
marked; a two-character text against budget 4 passes through unchanged. -/
theorem C4_truncation_witness :
    truncateText 2 ['a', 'b', 'c', 'd'] = ['a', 'b', 'c', 'd'].take 2 ++ truncMarker ∧
    (truncateText 2 ['a', 'b', 'c', 'd']).length = 2 + truncMarker.length ∧
    truncateText 4 ['a', 'b'] = ['a', 'b'] :=
  ⟨((C4_truncation 2 ['a', 'b', 'c', 'd']).1 (by decide)).1,
   ((C4_truncation 2 ['a', 'b', 'c', 'd']).1 (by decide)).2,
   (C4_truncation 4 ['a', 'b']).2 (by decide)⟩

/-- Claim C5: when the session identifier has no entry in the store, every
generation and discovery handler returns the 404 error, leaves the store
unchanged, and performs no collaborator call (its call trace is empty). -/
theorem C5_missing_session_404 (store : Store) (sid : String)
    (h : lookupStore store sid = none) :
    (∀ gen, generate_summary store sid gen = (Resp.error 404 notFoundMsg, store, [])) ∧
    (∀ n gen, generate_flashcards store sid n gen = (Resp.error 404 notFoundMsg, store, [])) ∧
    (∀ n gen, generate_quiz store sid n gen = (Resp.error 404 notFoundMsg, store, [])) ∧
    (∀ n f, discover_research store sid n f = (Resp.error 404 notFoundMsg, store, [])) ∧
    (∀ n kw f, discover_videos store sid n kw f = (Resp.error 404 notFoundMsg, store, [])) ∧
    (∀ n kw f, discover_resources store sid n kw f = (Resp.error 404 notFoundMsg, store, [])) := by
  refine ⟨?_, ?_, ?_, ?_, ?_, ?_⟩ <;> intros <;>
    simp [generate_summary, generate_flashcards, generate_quiz, discover_research,
      discover_videos, discover_resources, h]

/-- Claim C5 (witness): on the empty store both a generation and a discovery
request return 404 with no collaborator call. -/
theorem C5_missing_session_404_witness :
    generate_summary [] "default" (fun _ => Outcome.ok "text") =
      (Resp.error 404 notFoundMsg, [], []) ∧
    discover_research [] "default" 5 (fun _ _ => Outcome.ok []) =
      (Resp.error 404 notFoundMsg, [], []) := by
  have H := C5_missing_session_404 [] "default" (by decide)
  exact ⟨H.1 _, H.2.2.2.1 5 _⟩

/-- Claim C6: an upload that passes the filename, type, size and emptiness
gates and whose extraction succeeds with fewer than 10 words is rejected
with the 422 unprocessable-content error, and the session store is returned
unchanged — no session is stored for that upload. -/
theorem C6_low_word_count_422 (store : Store) (filename : String) (size : Nat)
    (r : ExtractResult) (h1 : filename ≠ "")
    (h2 : isPdfName filename = true)
    (h3 : ¬ size > 50 * 1024 * 1024) (h4 : size ≠ 0)
    (h5 : r.status ≠ "error") (h6 : r.word_count < 10) :
    upload_pdf store filename size (Outcome.ok r) =
      (Resp.error 422 "Very little text could be extracted. PDF may be image-based, protected, or corrupted.",
       store, [CollabCall.extractText]) := by
  simp [upload_pdf, h1, h2, h3, h4, h5, h6]

/-- Claim C6 (witness): a concrete low-text upload is rejected with 422 and
the prior store survives unchanged. -/
theorem C6_low_word_count_422_witness :
    upload_pdf sampleStore "doc.pdf" 100 (Outcome.ok lowTextResult) =
      (Resp.error 422 "Very little text could be extracted. PDF may be image-based, protected, or corrupted.",
       sampleStore, [CollabCall.extractText]) :=
  C6_low_word_count_422 sampleStore "doc.pdf" 100 lowTextResult (by decide) (by decide)
    (by decide) (by decide) (by decide) (by decide)

/-- Claim C7: every generation, discovery, question-answering and
session-info handler returns the session store it was given — the store (and
hence every stored session's text) is mutated only by the upload and
clear-session handlers; per-request truncation rebinds a local copy. -/
theorem C7_store_frame :
    (∀ store sid gen, (generate_summary store sid gen).2.1 = store) ∧
    (∀ store sid n gen, (generate_flashcards store sid n gen).2.1 = store) ∧
    (∀ store sid n gen, (generate_quiz store sid n gen).2.1 = store) ∧
    (∀ store sid n f, (discover_research store sid n f).2.1 = store) ∧
    (∀ store sid n kw f, (discover_videos store sid n kw f).2.1 = store) ∧
    (∀ store sid n kw f, (discover_resources store sid n kw f).2.1 = store) ∧
    (∀ store q d chat, (ask_question store q d chat).2.1 = store) ∧
    (∀ store sid, (get_session_info store sid).2 = store) := by
  refine ⟨?_, ?_, ?_, ?_, ?_, ?_, ?_, ?_⟩
  · intro store sid gen
    unfold generate_summary
    repeat' (first | split | dsimp only)
  · intro store sid n gen
    unfold generate_flashcards
    repeat' (first | split | dsimp only)
  · intro store sid n gen
    unfold generate_quiz
    repeat' (first | split | dsimp only)
  · intro store sid n f
    unfold discover_research
    repeat' (first | split | dsimp only)
  · intro store sid n kw f
    unfold discover_videos
    repeat' (first | split | dsimp only)
  · intro store sid n kw f
    unfold discover_resources
    repeat' (first | split | dsimp only)
  · intro store q d chat
    unfold ask_question
    repeat' (first | split | dsimp only)
  · intro store sid
    unfold get_session_info
    repeat' (first | split | dsimp only)

/-- Claim C8 (counterexample): `discover_videos` performs two offloaded
collaborator waits on its success path — keyword extraction and the video
search — so at this concrete input its call trace has length 2, refuting
"no handler awaits more than one offloaded collaborator call per request". -/
theorem C8_counterexample :
    ((discover_videos sampleStore "default" 10
        (fun _ => Outcome.ok ("topic", ["kw"], ["kw"]))
        (fun _ _ _ => Outcome.ok [])).2.2).length = 2 := by
  decide

/-- Claim C8 (amended): upload, summary, flashcards, quiz, research and
question-answering handlers await at most one offloaded collaborator call
per request, while discover-videos and discover-resources await at most two
— and exactly two (keyword extraction, then the search) on any path where
the session exists and both calls complete. -/
theorem C8_offloaded_call_counts :
    (∀ store f sz ex, (upload_pdf store f sz ex).2.2.length ≤ 1) ∧
    (∀ store sid gen, (generate_summary store sid gen).2.2.length ≤ 1) ∧
    (∀ store sid n gen, (generate_flashcards store sid n gen).2.2.length ≤ 1) ∧
    (∀ store sid n gen, (generate_quiz store sid n gen).2.2.length ≤ 1) ∧
    (∀ store sid n f, (discover_research store sid n f).2.2.length ≤ 1) ∧
    (∀ store q d chat, (ask_question store q d chat).2.2.length ≤ 1) ∧
    (∀ store sid n kw f, (discover_videos store sid n kw f).2.2.length ≤ 2) ∧
    (∀ store sid n kw f, (discover_resources store sid n kw f).2.2.length ≤ 2) ∧
    (∀ store sid s n topic ks as vids, lookupStore store sid = some s →
      (discover_videos store sid n (fun _ => Outcome.ok (topic, ks, as))
        (fun _ _ _ => Outcome.ok vids)).2.2 =
        [CollabCall.extractKeywords, CollabCall.findVideos]) ∧
    (∀ store sid s n topic ks as res, lookupStore store sid = some s →
      (discover_resources store sid n (fun _ => Outcome.ok (topic, ks, as))
        (fun _ _ _ => Outcome.ok res)).2.2 =
        [CollabCall.extractKeywords, CollabCall.findResources]) := by
  refine ⟨?_, ?_, ?_, ?_, ?_, ?_, ?_, ?_, ?_, ?_⟩
  · intro store f sz ex
    unfold upload_pdf
    (repeat' (first | split | dsimp only)) <;> simp
  · intro store sid gen
    unfold generate_summary
    (repeat' (first | split | dsimp only)) <;> simp
  · intro store sid n gen
    unfold generate_flashcards
    (repeat' (first | split | dsimp only)) <;> simp
  · intro store sid n gen
    unfold generate_quiz
    (repeat' (first | split | dsimp only)) <;> simp
  · intro store sid n f
    unfold discover_research
    (repeat' (first | split | dsimp only)) <;> simp
  · intro store q d chat
    unfold ask_question
    (repeat' (first | split | dsimp only)) <;> simp
  · intro store sid n kw f
    unfold discover_videos
    (repeat' (first | split | dsimp only)) <;> simp
  · intro store sid n kw f
    unfold discover_resources
    (repeat' (first | split | dsimp only)) <;> simp
  · intro store sid s n topic ks as vids h
    simp [discover_videos, h]
  · intro store sid s n topic ks as res h
    simp [discover_resources, h]

/-- Claim C8 (witness): a concrete successful video-discovery run records
exactly the keyword-extraction call followed by the video-search call. -/
theorem C8_offloaded_call_counts_witness :
    (discover_videos sampleStore "default" 3 (fun _ => Outcome.ok ("t", ["k"], ["k"]))
        (fun _ _ _ => Outcome.ok [])).2.2 =
      [CollabCall.extractKeywords, CollabCall.findVideos] := by
  have H := C8_offloaded_call_counts
  exact H.2.2.2.2.2.2.2.2.1 sampleStore "default" sampleSession 3 "t" ["k"] ["k"] [] (by decide)

/-- Claim C9: whenever the flashcards, quiz, research, videos or resources
handler produces a success payload — from a completed collaborator result,
a timeout fallback or an exception fallback — the payload's count field
equals the length of the list it accompanies. -/
theorem C9_count_matches_length :
    (∀ store sid n gen r, (generate_flashcards store sid n gen).1 = Resp.payload r →
      r.count = r.flashcards.length) ∧
    (∀ store sid n gen r, (generate_quiz store sid n gen).1 = Resp.payload r →
      r.count = r.quiz.length) ∧
    (∀ store sid n f r, (discover_research store sid n f).1 = Resp.payload r →
      r.count = r.papers.length) ∧
    (∀ store sid n kw f r, (discover_videos store sid n kw f).1 = Resp.payload r →
      r.count = r.videos.length) ∧
    (∀ store sid n kw f r, (discover_resources store sid n kw f).1 = Resp.payload r →
      r.count = r.resources.length) := by
  refine ⟨?_, ?_, ?_, ?_, ?_⟩
  · intro store sid n gen r hres
    unfold generate_flashcards at hres
    repeat' (first | split at hres | dsimp only at hres)
    all_goals first
      | (injection hres; done)
      | (injection hres with h2; subst h2; rfl)
  · intro store sid n gen r hres
    unfold generate_quiz at hres
    repeat' (first | split at hres | dsimp only at hres)
    all_goals first
      | (injection hres; done)
      | (injection hres with h2; subst h2; rfl)
  · intro store sid n f r hres
    unfold discover_research at hres
    repeat' (first | split at hres | dsimp only at hres)
    all_goals first
      | (injection hres; done)
      | (injection hres with h2; subst h2; rfl)
  · intro store sid n kw f r hres
    unfold discover_videos at hres
    repeat' (first | split at hres | dsimp only at hres)
    all_goals first
      | (injection hres; done)
      | (injection hres with h2; subst h2; rfl)
  · intro store sid n kw f r hres
    unfold discover_resources at hres
    repeat' (first | split at hres | dsimp only at hres)
    all_goals first
      | (injection hres; done)
      | (injection hres with h2; subst h2; rfl)

/-- Claim C9 (witness): the empty-result fallback response of the flashcard
handler on a concrete store carries a count equal to its list's length. -/
theorem C9_count_matches_length_witness :
    ({ flashcards := emptyResultFlashcards, count := emptyResultFlashcards.length,
       status := "success" } : FlashcardResponse).count = emptyResultFlashcards.length := by
  have H := C9_count_matches_length
  exact H.1 sampleStore "default" 10 (fun _ _ => Outcome.ok []) _ (by decide)

/-- Claim C10: on an existing session, if the flashcard or quiz collaborator
completes in time with an empty (falsy) list, the handler returns success
with the fixed two-item static fallback; moreover every success payload these
two endpoints ever produce carries a non-empty item list, and both static
fallbacks are non-empty. -/
theorem C10_empty_result_fallback (store : Store) (sid : String) (s : Session)
    (h : lookupStore store sid = some s) :
    (∀ n : Int, (generate_flashcards store sid n (fun _ _ => Outcome.ok [])).1 =
      Resp.payload { flashcards := emptyResultFlashcards
                     count := emptyResultFlashcards.length
                     status := "success" }) ∧
    (∀ n : Int, (generate_quiz store sid n (fun _ _ => Outcome.ok [])).1 =
      Resp.payload { quiz := emptyResultQuiz
                     count := emptyResultQuiz.length
                     status := "success" }) ∧
    (∀ n gen r, (generate_flashcards store sid n gen).1 = Resp.payload r →
      r.flashcards ≠ []) ∧
    (∀ n gen r, (generate_quiz store sid n gen).1 = Resp.payload r →
      r.quiz ≠ []) ∧
    emptyResultFlashcards ≠ [] ∧ emptyResultQuiz ≠ [] := by
  refine ⟨?_, ?_, ?_, ?_, by decide, by decide⟩
  · intro n
    simp [generate_flashcards, h]
  · intro n
    simp [generate_quiz, h]
  · intro n gen r hres
    unfold generate_flashcards at hres
    repeat' (first | split at hres | dsimp only at hres)
    all_goals first
      | (injection hres; done)
      | (injection hres with h2; subst h2; first | decide | assumption)
  · intro n gen r hres
    unfold generate_quiz at hres
    repeat' (first | split at hres | dsimp only at hres)
    all_goals first
      | (injection hres; done)
      | (injection hres with h2; subst h2; first | decide | assumption)

/-- Claim C10 (witness): on a concrete store, an in-time empty collaborator
result yields the two-item static fallback for both endpoints. -/
theorem C10_empty_result_fallback_witness :
    (generate_flashcards sampleStore "default" 10 (fun _ _ => Outcome.ok [])).1 =
      Resp.payload { flashcards := emptyResultFlashcards
                     count := emptyResultFlashcards.length
                     status := "success" } ∧
    (generate_quiz sampleStore "default" 8 (fun _ _ => Outcome.ok [])).1 =
      Resp.payload { quiz := emptyResultQuiz
                     count := emptyResultQuiz.length
                     status := "success" } ∧
    emptyResultFlashcards ≠ [] := by
  have H := C10_empty_result_fallback sampleStore "default" sampleSession (by decide)
  exact ⟨H.1 10, H.2.1 8, H.2.2.2.2.1⟩

end StudyBackend
